import Mathlib

/-!
Shallow embedding of the action-stream codec of `genie-rec`
(`src/crates/genie-rec/src/actions.rs`).

Byte streams are `List Nat` (each element a byte value `< 256`).  A reader
is a function from the input stream to an `Outcome`: success with a value
and the remaining stream, an error `Result` propagated with `?` (I/O or
format error), or a `panic!`/failed assertion (process termination).  The
distinction between the error result and the panic is part of the model,
because several claims are about which of the two the code produces.

Rust's fixed-width little-endian reads (`byteorder`) are modelled
structurally; machine integers are `Nat`/`Int` with explicit two's
complement conversions.  `f32` fields are modelled by their 4-byte bit
patterns (the codec never does float arithmetic on the fields the claims
are about, it only moves the raw bits).
-/

namespace GenieRec

/-- A byte stream. -/
abbrev Bytes := List Nat

/-- Result of running a reader on a byte stream. `ok` carries the decoded
value and the unread remainder of the stream; `error` is a Rust `Err`
propagated with `?`; `panicked` is a `panic!`/failed `assert!`. -/
inductive Outcome (α : Type) where
  | ok : α → List Nat → Outcome α
  | error : Outcome α
  | panicked : String → Outcome α
deriving DecidableEq

/-- A reader: consumes a prefix of the byte stream. -/
def DRead (α : Type) : Type := List Nat → Outcome α

/-- Sequencing of readers, the model of `?`-chained reads: an `Err` or a
panic aborts the rest of the computation. -/
def step {α β : Type} (m : DRead α) (f : α → DRead β) : DRead β := fun input =>
  match m input with
  | .ok a rest => f a rest
  | .error => .error
  | .panicked s => .panicked s

/-- A reader that consumes nothing and returns `a`. -/
def pureR {α : Type} (a : α) : DRead α := fun input => .ok a input

/-- A reader that panics. -/
def panicR {α : Type} (s : String) : DRead α := fun _ => .panicked s

/-- Map over the value of an outcome (the model of `Result::map`). -/
def mapO {α β : Type} (f : α → β) : Outcome α → Outcome β
  | .ok a rest => .ok (f a) rest
  | .error => .error
  | .panicked s => .panicked s

/-- `read_u8`: one byte; a short read is a fatal error. -/
def readU8 : List Nat → Option (Nat × List Nat)
  | [] => none
  | b :: rest => some (b, rest)

/-- `read_u16::<LE>`: two bytes, little-endian. -/
def readU16 : List Nat → Option (Nat × List Nat)
  | b0 :: b1 :: rest => some (b0 + 256 * b1, rest)
  | _ => none

/-- `read_u32::<LE>`: four bytes, little-endian. -/
def readU32 : List Nat → Option (Nat × List Nat)
  | b0 :: b1 :: b2 :: b3 :: rest =>
      some (b0 + 256 * b1 + 65536 * b2 + 16777216 * b3, rest)
  | _ => none

/-- Two's complement interpretation of a byte as `i8`. -/
def toSigned8 (v : Nat) : Int := if v < 128 then (v : Int) else (v : Int) - 256

/-- Two's complement interpretation of a 16-bit value as `i16`. -/
def toSigned16 (v : Nat) : Int := if v < 32768 then (v : Int) else (v : Int) - 65536

/-- Two's complement interpretation of a 32-bit value as `i32`. -/
def toSigned32 (v : Nat) : Int :=
  if v < 2147483648 then (v : Int) else (v : Int) - 4294967296

/-- Lift an `Option`-valued primitive to a reader; `none` (short read) is a
fatal error, never recoverable at this layer. -/
def liftOpt {α : Type} (p : List Nat → Option (α × List Nat)) : DRead α := fun input =>
  match p input with
  | some (a, r) => .ok a r
  | none => .error

def readU8R : DRead Nat := liftOpt readU8
def readU16R : DRead Nat := liftOpt readU16
def readU32R : DRead Nat := liftOpt readU32
def readI8R : DRead Int := step readU8R fun v => pureR (toSigned8 v)
def readI16R : DRead Int := step readU16R fun v => pureR (toSigned16 v)
def readI32R : DRead Int := step readU32R fun v => pureR (toSigned32 v)

/-- `read_f32::<LE>` modelled as the raw 4-byte bit pattern. -/
def readF32R : DRead Nat := readU32R

/-- `ReadSkipExt::skip(n)`: read and discard `n` bytes; a short read is a
fatal error. (The helper lives in the support crate; its contract is the
primitive-codec contract of the spec: no partial reads.) -/
def skipBytes : Nat → List Nat → Option (Unit × List Nat)
  | 0, input => some ((), input)
  | _ + 1, [] => none
  | n + 1, _ :: rest => skipBytes n rest

def skipR (n : Nat) : DRead Unit := liftOpt (skipBytes n)

/-- Modelled from the spec: `read_opt_u32` from the support crate (not
under `src/`). "An optional 32-bit identifier read consumes 4 bytes and
maps the bit pattern 0xFFFFFFFF to none, any other value to present via
narrowing into the identifier's domain." -/
def read_opt_u32 : DRead (Option Nat) :=
  step readU32R fun v => pureR (if v = 4294967295 then none else some v)

/-- Read `n` consecutive raw bytes (`read_u32_length_prefixed_str` body). -/
def readBytesList : Nat → DRead (List Nat)
  | 0 => pureR []
  | n + 1 =>
    step readU8R fun b =>
    step (readBytesList n) fun bs =>
    pureR (b :: bs)

/-- Modelled from the spec: `read_u32_length_prefixed_str` from the support
crate (not under `src/`): chat messages are "length-prefixed strings", a
32-bit length followed by that many bytes. -/
def read_u32_length_prefixed_str : DRead (Option (List Nat)) :=
  step readU32R fun n =>
  step (readBytesList n) fun bs =>
  pureR (if n = 0 then none else some bs)

/-- Little-endian bytes of an unsigned 32-bit value. -/
def u32Bytes (v : Nat) : List Nat :=
  [v % 256, v / 256 % 256, v / 65536 % 256, v / 16777216 % 256]

/-- Little-endian bytes of an unsigned 16-bit value. -/
def u16Bytes (v : Nat) : List Nat := [v % 256, v / 256 % 256]

/-- `write_i32::<LE>`: two's complement little-endian bytes. -/
def i32Bytes (v : Int) : List Nat := u32Bytes ((v % 4294967296).toNat)

/-- The bit pattern of `-1.0f32`, used by the `f32_neq!(x, -1.0)` location
sentinel tests. -/
def f32NegOneBits : Nat := 0xBF800000

/--
`ObjectsList`: either "use the same objects as the previous command" or an
explicit list of object IDs (`actions.rs` lines 53-59).
-/
inductive ObjectsList where
  | SameAsLast : ObjectsList
  | List : Bytes → ObjectsList
deriving DecidableEq

/-- Loop body of `ObjectsList::read_from`: read `n` object IDs, each an
`i32` narrowed into `ObjectID` with `try_into().unwrap()` (panicking on a
negative ID). -/
def readObjectIds : Nat → DRead (List Nat)
  | 0 => pureR []
  | n + 1 =>
    step readI32R fun v =>
    if v < 0 then panicR "unwrap on Err" else
    step (readObjectIds n) fun rest =>
    pureR (v.toNat :: rest)

/-- `ObjectsList::read_from(input, count)` (`actions.rs` lines 69-79):
`count < 0xFF` decodes `count` IDs (`0..count` iterates `max count 0`
times), anything else is the reuse marker. -/
def ObjectsList.read_from (count : Int) : DRead ObjectsList :=
  if count < 255 then
    step (readObjectIds count.toNat) fun list => pureR (ObjectsList.List list)
  else
    pureR ObjectsList.SameAsLast

/-- `ObjectsList::write_to` (`actions.rs` lines 82-89): the marker emits
nothing; a list emits each ID as a little-endian `u32`. -/
def ObjectsList.write_to : ObjectsList → Bytes
  | ObjectsList.SameAsLast => []
  | ObjectsList.List list => (list.map u32Bytes).flatten

/-- `ObjectsList::len` (`actions.rs` lines 94-99): 0 for the marker. -/
def ObjectsList.len : ObjectsList → Nat
  | ObjectsList.SameAsLast => 0
  | ObjectsList.List list => list.length

instance : Inhabited ObjectsList := ⟨ObjectsList.List []⟩

/-- A 2D location, modelled as the two `f32` bit patterns. -/
abbrev Location2 := Nat × Nat

/-- A 3D location, modelled as the three `f32` bit patterns. -/
abbrev Location3 := Nat × Nat × Nat

/-- `OrderCommand` (`actions.rs` lines 108-118). -/
structure OrderCommand where
  player_id : Nat
  target_id : Option Nat
  location : Location2
  objects : ObjectsList
deriving DecidableEq

/-- `OrderCommand::read_from` (`actions.rs` lines 122-133). -/
def OrderCommand.read_from : DRead OrderCommand :=
  step readU8R fun player_id =>
  step (skipR 2) fun _ =>
  step read_opt_u32 fun target_id =>
  step readI32R fun selected_count =>
  step readF32R fun x =>
  step readF32R fun y =>
  step (ObjectsList.read_from selected_count) fun objects =>
  pureR { player_id, target_id, location := (x, y), objects }

/-- `OrderCommand::write_to` (`actions.rs` lines 136-149).  The target is
`target_id.map(try_into().unwrap()).unwrap_or(-1)` (panics for an ID that
does not fit `i32`); the count field is `objects.len()` narrowed to `u32`. -/
def OrderCommand.write_to (c : OrderCommand) : Outcome Bytes :=
  match c.target_id with
  | some id =>
    if id < 2147483648 then
      .ok ([c.player_id] ++ [0, 0] ++ i32Bytes id
        ++ u32Bytes (ObjectsList.len c.objects)
        ++ u32Bytes c.location.1 ++ u32Bytes c.location.2
        ++ ObjectsList.write_to c.objects) []
    else .panicked "unwrap on Err"
  | none =>
    .ok ([c.player_id] ++ [0, 0] ++ i32Bytes (-1)
      ++ u32Bytes (ObjectsList.len c.objects)
      ++ u32Bytes c.location.1 ++ u32Bytes c.location.2
      ++ ObjectsList.write_to c.objects) []

/-- `StopCommand` (`actions.rs` lines 153-157). -/
structure StopCommand where
  objects : ObjectsList
deriving DecidableEq

/-- `StopCommand::read_from` (`actions.rs` lines 161-166): the count is a
single signed byte, sign-extended to `i32` for the list codec. -/
def StopCommand.read_from : DRead StopCommand :=
  step readI8R fun selected_count =>
  step (ObjectsList.read_from selected_count) fun objects =>
  pureR { objects }

/-- `StopCommand::write_to` (`actions.rs` lines 169-173): the count byte is
`objects.len()` narrowed to `i8` with `try_into().unwrap()`. -/
def StopCommand.write_to (c : StopCommand) : Outcome Bytes :=
  if ObjectsList.len c.objects ≤ 127 then
    .ok (ObjectsList.len c.objects :: ObjectsList.write_to c.objects) []
  else .panicked "unwrap on Err"

/-- `WorkCommand` (`actions.rs` lines 178-185). -/
structure WorkCommand where
  target_id : Option Nat
  location : Location2
  objects : ObjectsList
deriving DecidableEq

/-- `WorkCommand::read_from` (`actions.rs` lines 189-198). -/
def WorkCommand.read_from : DRead WorkCommand :=
  step (skipR 3) fun _ =>
  step read_opt_u32 fun target_id =>
  step readI8R fun selected_count =>
  step (skipR 3) fun _ =>
  step readF32R fun x =>
  step readF32R fun y =>
  step (ObjectsList.read_from selected_count) fun objects =>
  pureR { target_id, location := (x, y), objects }

/-- `MoveCommand` (`actions.rs` lines 215-224). -/
structure MoveCommand where
  player_id : Nat
  target_id : Option Nat
  location : Location2
  objects : ObjectsList
deriving DecidableEq

/-- `MoveCommand::read_from` (`actions.rs` lines 228-240). -/
def MoveCommand.read_from : DRead MoveCommand :=
  step readU8R fun player_id =>
  step (skipR 2) fun _ =>
  step read_opt_u32 fun target_id =>
  step readI8R fun selected_count =>
  step (skipR 3) fun _ =>
  step readF32R fun x =>
  step readF32R fun y =>
  step (ObjectsList.read_from selected_count) fun objects =>
  pureR { player_id, target_id, location := (x, y), objects }

/-- `CreateCommand` (`actions.rs` lines 258-265). -/
structure CreateCommand where
  player_id : Nat
  unit_type_id : Nat
  location : Location3
deriving DecidableEq

/-- `CreateCommand::read_from` (`actions.rs` lines 269-281). -/
def CreateCommand.read_from : DRead CreateCommand :=
  step readU8R fun _padding =>
  step readU16R fun unit_type_id =>
  step readU8R fun player_id =>
  step readU8R fun _padding2 =>
  step readF32R fun x =>
  step readF32R fun y =>
  step readF32R fun z =>
  pureR { player_id, unit_type_id, location := (x, y, z) }

/-- `AddResourceCommand` (`actions.rs` lines 300-307). -/
structure AddResourceCommand where
  player_id : Nat
  resource : Nat
  amount : Nat
deriving DecidableEq

/-- `AddResourceCommand::read_from` (`actions.rs` lines 311-321). -/
def AddResourceCommand.read_from : DRead AddResourceCommand :=
  step readU8R fun player_id =>
  step readU8R fun resource =>
  step readU8R fun _padding =>
  step readF32R fun amount =>
  pureR { player_id, resource, amount }

/-- `AIOrderCommand` (`actions.rs` lines 335-347). -/
structure AIOrderCommand where
  player_id : Nat
  issuer : Nat
  objects : ObjectsList
  order_type : Nat
  order_priority : Int
  target_id : Option Nat
  target_player_id : Option Nat
  target_location : Location3
  range : Nat
  immediate : Bool
  add_to_front : Bool
deriving DecidableEq

/-- `AIOrderCommand::read_from` (`actions.rs` lines 350-380): a selected
count of exactly 1 inlines the single object ID read earlier instead of
invoking the list codec; the target player is a signed byte, `-1` meaning
none, other negatives panicking in `try_into().unwrap()`. -/
def AIOrderCommand.read_from : DRead AIOrderCommand :=
  step readI8R fun selected_count =>
  step readU8R fun player_id =>
  step readU8R fun issuer =>
  step readU32R fun object_id =>
  step readU16R fun order_type =>
  step readI8R fun order_priority =>
  step readU8R fun _padding =>
  step read_opt_u32 fun target_id =>
  step readI8R fun tp =>
  step (if tp = -1 then pureR none
        else if 0 ≤ tp then pureR (some tp.toNat)
        else panicR "unwrap on Err") fun target_player_id =>
  step (skipR 3) fun _ =>
  step readF32R fun x =>
  step readF32R fun y =>
  step readF32R fun z =>
  step readF32R fun range =>
  step readU8R fun immediate =>
  step readU8R fun add_to_front =>
  step readU16R fun _padding2 =>
  step (if selected_count = 1 then pureR (ObjectsList.List [object_id])
        else ObjectsList.read_from selected_count) fun objects =>
  pureR { player_id, issuer, objects, order_type, order_priority, target_id,
          target_player_id, target_location := (x, y, z), range,
          immediate := immediate ≠ 0, add_to_front := add_to_front ≠ 0 }

/-- `ResignCommand` (`actions.rs` lines 417-424). -/
structure ResignCommand where
  player_id : Nat
  comm_player_id : Nat
  dropped : Bool
deriving DecidableEq

/-- `ResignCommand::read_from` (`actions.rs` lines 428-437). -/
def ResignCommand.read_from : DRead ResignCommand :=
  step readU8R fun player_id =>
  step readU8R fun comm_player_id =>
  step readU8R fun dropped =>
  pureR { player_id, comm_player_id, dropped := dropped ≠ 0 }

/-- `GroupWaypointCommand` (`actions.rs` lines 449-453). -/
structure GroupWaypointCommand where
  player_id : Nat
  location : Nat × Nat
  objects : ObjectsList
deriving DecidableEq

/-- `GroupWaypointCommand::read_from` (`actions.rs` lines 456-466). -/
def GroupWaypointCommand.read_from : DRead GroupWaypointCommand :=
  step readU8R fun player_id =>
  step readU8R fun num_units =>
  step readU8R fun x =>
  step readU8R fun y =>
  step (ObjectsList.read_from num_units) fun objects =>
  pureR { player_id, location := (x, y), objects }

/-- `UnitAIStateCommand` (`actions.rs` lines 480-485). -/
structure UnitAIStateCommand where
  state : Int
  objects : ObjectsList
deriving DecidableEq

/-- `UnitAIStateCommand::read_from` (`actions.rs` lines 489-494). -/
def UnitAIStateCommand.read_from : DRead UnitAIStateCommand :=
  step readU8R fun selected_count =>
  step readI8R fun state =>
  step (ObjectsList.read_from selected_count) fun objects =>
  pureR { state, objects }

/-- `GuardCommand` (`actions.rs` lines 507-512). -/
structure GuardCommand where
  target_id : Option Nat
  objects : ObjectsList
deriving DecidableEq

/-- `GuardCommand::read_from` (`actions.rs` lines 516-523). -/
def GuardCommand.read_from : DRead GuardCommand :=
  step readU8R fun selected_count =>
  step (skipR 2) fun _ =>
  step read_opt_u32 fun target_id =>
  step (ObjectsList.read_from selected_count) fun objects =>
  pureR { target_id, objects }

/-- `FollowCommand` (`actions.rs` lines 541-546). -/
structure FollowCommand where
  target_id : Option Nat
  objects : ObjectsList
deriving DecidableEq

/-- `FollowCommand::read_from` (`actions.rs` lines 550-557). -/
def FollowCommand.read_from : DRead FollowCommand :=
  step readU8R fun selected_count =>
  step (skipR 2) fun _ =>
  step read_opt_u32 fun target_id =>
  step (ObjectsList.read_from selected_count) fun objects =>
  pureR { target_id, objects }

/-- Read `n` consecutive `f32` values (as bit patterns). -/
def readF32List : Nat → DRead (List Nat)
  | 0 => pureR []
  | n + 1 =>
    step readF32R fun v =>
    step (readF32List n) fun vs =>
    pureR (v :: vs)

/-- Read `n` consecutive `u32` values. -/
def readU32List : Nat → DRead (List Nat)
  | 0 => pureR []
  | n + 1 =>
    step readU32R fun v =>
    step (readU32List n) fun vs =>
    pureR (v :: vs)

/-- Read `n` consecutive `i32` values (`read_i32_into`). -/
def readI32List : Nat → DRead (List Int)
  | 0 => pureR []
  | n + 1 =>
    step readI32R fun v =>
    step (readI32List n) fun vs =>
    pureR (v :: vs)

/-- `PatrolCommand` (`actions.rs` lines 575-580): the waypoint buffer has a
fixed capacity of 10. -/
structure PatrolCommand where
  waypoints : List Location2
  objects : ObjectsList
deriving DecidableEq

/-- `PatrolCommand::read_from` (`actions.rs` lines 583-601): 10 X values
then 10 Y values are always read (column-major); the slice
`raw_waypoints[0..waypoint_count]` panics when the count exceeds 10. -/
def PatrolCommand.read_from : DRead PatrolCommand :=
  step readI8R fun selected_count =>
  step readU8R fun waypoint_count =>
  step readU8R fun _padding =>
  step (readF32List 10) fun xs =>
  step (readF32List 10) fun ys =>
  step (if waypoint_count ≤ 10 then pureR ((xs.zip ys).take waypoint_count)
        else panicR "slice index out of range") fun waypoints =>
  step (ObjectsList.read_from selected_count) fun objects =>
  pureR { waypoints, objects }

/-- `FormFormationCommand` (`actions.rs` lines 620-627). -/
structure FormFormationCommand where
  player_id : Nat
  formation_type : Int
  objects : ObjectsList
deriving DecidableEq

/-- `FormFormationCommand::read_from` (`actions.rs` lines 630-638). -/
def FormFormationCommand.read_from : DRead FormFormationCommand :=
  step readI8R fun selected_count =>
  step readU8R fun player_id =>
  step readU8R fun _padding =>
  step readI32R fun formation_type =>
  step (ObjectsList.read_from selected_count) fun objects =>
  pureR { player_id, formation_type, objects }

/-- `UserPatchAICommand` (`actions.rs` lines 652-672): the parameter buffer
has a fixed capacity of 4. -/
structure UserPatchAICommand where
  player_id : Nat
  ai_action : Nat
  params : List Nat
deriving DecidableEq

/-- `UserPatchAICommand::read_from` (`actions.rs` lines 675-694): the
parameter count is `(size - 4) / 4` in wrapping `u32` arithmetic, derived
from the declared frame length `size`; `assert!(num_params < 4)` panics
with "needs more room" otherwise, before any byte is read. -/
def UserPatchAICommand.read_from (size : Nat) : DRead UserPatchAICommand :=
  let num_params := ((size + 4294967296 - 4) % 4294967296) / 4
  if num_params < 4 then
    step readU8R fun ai_action =>
    step readU8R fun player_id =>
    step readU8R fun _padding =>
    step (readU32List num_params) fun params =>
    pureR { player_id, ai_action, params }
  else
    panicR "UserPatchAICommand needs more room"

/-- `MakeCommand` (`actions.rs` lines 708-713). -/
structure MakeCommand where
  player_id : Nat
  building_id : Nat
  unit_type_id : Nat
  target_id : Option Nat
deriving DecidableEq

/-- `MakeCommand::read_from` (`actions.rs` lines 716-729). -/
def MakeCommand.read_from : DRead MakeCommand :=
  step (skipR 3) fun _ =>
  step readU32R fun building_id =>
  step readU8R fun player_id =>
  step readU8R fun _padding =>
  step readU16R fun unit_type_id =>
  step read_opt_u32 fun target_id =>
  pureR { player_id, building_id, unit_type_id, target_id }

/-- `ResearchCommand` (`actions.rs` lines 747-756). -/
structure ResearchCommand where
  player_id : Nat
  building_id : Nat
  tech_id : Nat
  target_id : Option Nat
deriving DecidableEq

/-- `ResearchCommand::read_from` (`actions.rs` lines 759-772). -/
def ResearchCommand.read_from : DRead ResearchCommand :=
  step (skipR 3) fun _ =>
  step readU32R fun building_id =>
  step readU8R fun player_id =>
  step readU8R fun _padding =>
  step readU16R fun tech_id =>
  step read_opt_u32 fun target_id =>
  pureR { player_id, building_id, tech_id, target_id }

/-- `BuildCommand` (`actions.rs` lines 790-803). -/
structure BuildCommand where
  player_id : Nat
  unit_type_id : Nat
  location : Location2
  frame : Nat
  builders : ObjectsList
  unique_id : Option Nat
deriving DecidableEq

/-- `BuildCommand::read_from` (`actions.rs` lines 806-821). -/
def BuildCommand.read_from : DRead BuildCommand :=
  step readI8R fun selected_count =>
  step readU8R fun player_id =>
  step readU8R fun _padding =>
  step readF32R fun x =>
  step readF32R fun y =>
  step readU16R fun unit_type_id =>
  step readU16R fun _padding2 =>
  step read_opt_u32 fun unique_id =>
  step readU8R fun frame =>
  step (skipR 3) fun _ =>
  step (ObjectsList.read_from selected_count) fun builders =>
  pureR { player_id, unit_type_id, location := (x, y), frame, builders, unique_id }

/-- `GameCommand` (`actions.rs` lines 826-880): the nested sub-protocol
multiplexed inside the `Game` opcode. -/
inductive GameCommand where
  | SetGameSpeed (player_id : Nat) (speed : Nat)
  | Inventory (player_id : Nat) (attribute_id : Int) (amount : Nat)
  | UpgradeTown (player_id : Nat)
  | QuickBuild (player_id : Nat)
  | AlliedVictory (player_id : Nat) (status : Bool)
  | Cheat (player_id : Nat) (cheat_id : Int)
  | SharedLos (player_id : Nat)
  | Spies (player_id : Nat)
  | SetStrategicNumber (player_id : Nat) (strategic_number : Int) (value : Int)
  | Unknown0x0c (player_id : Nat)
  | AddFarmReseedQueue (player_id : Nat) (amount : Int)
  | RemoveFarmReseedQueue (player_id : Nat) (amount : Int)
  | FarmReseedAutoQueue (player_id : Nat)
deriving DecidableEq

/-- `RawGameCommand` (`actions.rs` lines 883-889): the fixed 16-byte shape
(with the leading sub-opcode byte) shared by every sub-command. -/
structure RawGameCommand where
  game_command : Nat
  var1 : Int
  var2 : Int
  var3 : Nat
  var4 : Nat
deriving DecidableEq

/-- `RawGameCommand::read_from` (`actions.rs` lines 892-906). -/
def RawGameCommand.read_from : DRead RawGameCommand :=
  step readU8R fun game_command =>
  step readI16R fun var1 =>
  step readI16R fun var2 =>
  step readU16R fun _padding =>
  step readF32R fun var3 =>
  step readU32R fun var4 =>
  pureR { game_command, var1, var2, var3, var4 }

/-- `var1.try_into().unwrap()` for `PlayerID` (a byte-sized identifier in
the support crate; the spec calls it a "small unsigned integer"): panics
when the 16-bit value is out of the identifier's domain. -/
def asPlayerID (v : Int) : DRead Nat := fun input =>
  if 0 ≤ v ∧ v < 256 then .ok v.toNat input else .panicked "unwrap on Err"

/-- `GameCommand::read_from` (`actions.rs` lines 910-972): dispatch on the
sub-opcode; an unknown sub-opcode panics ("unimplemented game command"). -/
def GameCommand.read_from : DRead GameCommand :=
  step RawGameCommand.read_from fun raw =>
  if raw.game_command = 0x01 then
    step (asPlayerID raw.var1) fun p => pureR (GameCommand.SetGameSpeed p raw.var3)
  else if raw.game_command = 0x02 then
    step (asPlayerID raw.var1) fun p => pureR (GameCommand.Inventory p raw.var2 raw.var3)
  else if raw.game_command = 0x03 then
    step (asPlayerID raw.var1) fun p => pureR (GameCommand.UpgradeTown p)
  else if raw.game_command = 0x04 then
    step (asPlayerID raw.var1) fun p => pureR (GameCommand.QuickBuild p)
  else if raw.game_command = 0x05 then
    step (asPlayerID raw.var1) fun p => pureR (GameCommand.AlliedVictory p (raw.var2 ≠ 0))
  else if raw.game_command = 0x06 then
    step (asPlayerID raw.var1) fun p => pureR (GameCommand.Cheat p raw.var2)
  else if raw.game_command = 0x07 then
    step (asPlayerID raw.var1) fun p => pureR (GameCommand.SharedLos p)
  else if raw.game_command = 0x0a then
    step (asPlayerID raw.var1) fun p => pureR (GameCommand.Spies p)
  else if raw.game_command = 0x0b then
    step (asPlayerID raw.var1) fun p =>
    step (if raw.var4 < 2147483648 then pureR (Int.ofNat raw.var4)
          else panicR "unwrap on Err") fun value =>
    pureR (GameCommand.SetStrategicNumber p raw.var2 value)
  else if raw.game_command = 0x0c then
    step (asPlayerID raw.var1) fun p => pureR (GameCommand.Unknown0x0c p)
  else if raw.game_command = 0x0d then
    step (asPlayerID raw.var1) fun p => pureR (GameCommand.AddFarmReseedQueue p raw.var2)
  else if raw.game_command = 0x0e then
    step (asPlayerID raw.var1) fun p => pureR (GameCommand.RemoveFarmReseedQueue p raw.var2)
  else if raw.game_command = 0x10 then
    step (asPlayerID raw.var1) fun p => pureR (GameCommand.FarmReseedAutoQueue p)
  else
    panicR "unimplemented game command"

/-- `BuildWallCommand` (`actions.rs` lines 976-982). -/
structure BuildWallCommand where
  player_id : Nat
  start : Nat × Nat
  end_ : Nat × Nat
  unit_type_id : Nat
  builders : ObjectsList
deriving DecidableEq

/-- `BuildWallCommand::read_from` (`actions.rs` lines 985-1015): the
trailing all-ones guard word is checked with `assert_eq!` ("check out what
this is for"), panicking on mismatch; a selected count of `-1` is the reuse
marker, other negative counts panic in `try_into().unwrap()`; a single ID
of `-1` is cleared to an empty list; negative IDs panic when narrowed. -/
def BuildWallCommand.read_from : DRead BuildWallCommand :=
  step readI8R fun selected_count =>
  step readU8R fun player_id =>
  step readU8R fun x1 =>
  step readU8R fun y1 =>
  step readU8R fun x2 =>
  step readU8R fun y2 =>
  step readU8R fun _padding =>
  step readU16R fun unit_type_id =>
  step readU16R fun _padding2 =>
  step readU32R fun guard =>
  step (if guard = 4294967295 then pureR ()
        else panicR "check out what this is for") fun _ =>
  step (if selected_count = -1 then pureR ObjectsList.SameAsLast
        else if selected_count < 0 then panicR "unwrap on Err"
        else
          step (readI32List selected_count.toNat) fun raw =>
          let cleared := if selected_count = 1 ∧ raw.head? = some (-1) then [] else raw
          if cleared.all (fun v => 0 ≤ v) then
            pureR (ObjectsList.List (cleared.map Int.toNat))
          else panicR "unwrap on Err") fun builders =>
  pureR { player_id, start := (x1, y1), end_ := (x2, y2), unit_type_id, builders }

/-- `CancelBuildCommand` (`actions.rs` lines 1020-1025). -/
structure CancelBuildCommand where
  player_id : Nat
  building_id : Nat
deriving DecidableEq

/-- `CancelBuildCommand::read_from` (`actions.rs` lines 1028-1036): the
player is a full `u32` narrowed with `try_into().unwrap()`. -/
def CancelBuildCommand.read_from : DRead CancelBuildCommand :=
  step (skipR 3) fun _ =>
  step readU32R fun building_id =>
  step readU32R fun p =>
  step (if p < 256 then pureR p else panicR "unwrap on Err") fun player_id =>
  pureR { player_id, building_id }

/-- `AttackGroundCommand` (`actions.rs` lines 1048-1053). -/
structure AttackGroundCommand where
  location : Location2
  objects : ObjectsList
deriving DecidableEq

/-- `AttackGroundCommand::read_from` (`actions.rs` lines 1057-1064). -/
def AttackGroundCommand.read_from : DRead AttackGroundCommand :=
  step readI8R fun selected_count =>
  step (skipR 2) fun _ =>
  step readF32R fun x =>
  step readF32R fun y =>
  step (ObjectsList.read_from selected_count) fun objects =>
  pureR { location := (x, y), objects }

/-- `RepairCommand` (`actions.rs` lines 1079-1084). -/
structure RepairCommand where
  target_id : Option Nat
  repairers : ObjectsList
deriving DecidableEq

/-- `RepairCommand::read_from` (`actions.rs` lines 1088-1095). -/
def RepairCommand.read_from : DRead RepairCommand :=
  step readU8R fun selected_count =>
  step (skipR 2) fun _ =>
  step read_opt_u32 fun target_id =>
  step (ObjectsList.read_from selected_count) fun repairers =>
  pureR { target_id, repairers }

/-- `UngarrisonCommand` (`actions.rs` lines 1113-1118). -/
structure UngarrisonCommand where
  ungarrison_type : Int
  unit_type_id : Option Nat
  location : Option Location2
  objects : ObjectsList
deriving DecidableEq

/-- `UngarrisonCommand::read_from` (`actions.rs` lines 1121-1137): the
location is present when both coordinates differ from `-1.0`
(`f32_neq!`, modelled on the bit patterns). -/
def UngarrisonCommand.read_from : DRead UngarrisonCommand :=
  step readI8R fun selected_count =>
  step readU16R fun _padding =>
  step readF32R fun x =>
  step readF32R fun y =>
  step readI8R fun ungarrison_type =>
  step (skipR 3) fun _ =>
  step read_opt_u32 fun unit_type_id =>
  step (ObjectsList.read_from selected_count) fun objects =>
  pureR { ungarrison_type, unit_type_id,
          location := if x ≠ f32NegOneBits ∧ y ≠ f32NegOneBits then some (x, y) else none,
          objects }

/-- `FlareCommand` (`actions.rs` lines 1142-1147). -/
structure FlareCommand where
  player_id : Nat
  comm_player_id : Nat
  recipients : List Bool
  location : Location2
deriving DecidableEq

/-- Read `n` single-byte boolean flags. -/
def readFlags : Nat → DRead (List Bool)
  | 0 => pureR []
  | n + 1 =>
    step readU8R fun b =>
    step (readFlags n) fun bs =>
    pureR ((b ≠ 0) :: bs)

/-- `FlareCommand::read_from` (`actions.rs` lines 1150-1167): asserts a
`-1` unit ID ("found flare with unexpected unit id"), panicking otherwise. -/
def FlareCommand.read_from : DRead FlareCommand :=
  step (skipR 3) fun _ =>
  step readI32R fun unit_id =>
  step (if unit_id = -1 then pureR ()
        else panicR "found flare with unexpected unit id") fun _ =>
  step (readFlags 9) fun recipients =>
  step (skipR 3) fun _ =>
  step readF32R fun x =>
  step readF32R fun y =>
  step readU8R fun player_id =>
  step readU8R fun comm_player_id =>
  step (skipR 2) fun _ =>
  pureR { player_id, comm_player_id, recipients, location := (x, y) }

/-- `UnitOrderCommand` (`actions.rs` lines 1172-1179). -/
structure UnitOrderCommand where
  target_id : Option Nat
  action : Int
  param : Option Nat
  location : Option Location2
  unique_id : Option Nat
  objects : ObjectsList
deriving DecidableEq

/-- `UnitOrderCommand::read_from` (`actions.rs` lines 1182-1203): the
parameter byte is signed, `-1` meaning none, anything else reinterpreted
`as u8`; the location uses the same `-1.0` sentinel as `Ungarrison`. -/
def UnitOrderCommand.read_from : DRead UnitOrderCommand :=
  step readI8R fun selected_count =>
  step readU16R fun _padding =>
  step read_opt_u32 fun target_id =>
  step readI8R fun action =>
  step readI8R fun rawParam =>
  step readU16R fun _padding2 =>
  step readF32R fun x =>
  step readF32R fun y =>
  step read_opt_u32 fun unique_id =>
  step (ObjectsList.read_from selected_count) fun objects =>
  pureR { target_id, action,
          param := if rawParam = -1 then none else some (rawParam % 256).toNat,
          location := if x ≠ f32NegOneBits ∧ y ≠ f32NegOneBits then some (x, y) else none,
          unique_id, objects }

/-- `QueueCommand` (`actions.rs` lines 1208-1215). -/
structure QueueCommand where
  building_id : Nat
  unit_type_id : Nat
  amount : Nat
deriving DecidableEq

/-- `QueueCommand::read_from` (`actions.rs` lines 1218-1225). -/
def QueueCommand.read_from : DRead QueueCommand :=
  step (skipR 3) fun _ =>
  step readU32R fun building_id =>
  step readU16R fun unit_type_id =>
  step readU16R fun amount =>
  pureR { building_id, unit_type_id, amount }

/-- `SetGatherPointCommand` (`actions.rs` lines 1238-1247). -/
structure SetGatherPointCommand where
  buildings : ObjectsList
  target_id : Option Nat
  target_type_id : Option Nat
  location : Option Location2
deriving DecidableEq

/-- `SetGatherPointCommand::read_from` (`actions.rs` lines 1250-1263): the
target unit type uses the 16-bit `0xFFFF` sentinel for none. -/
def SetGatherPointCommand.read_from : DRead SetGatherPointCommand :=
  step readI8R fun selected_count =>
  step (skipR 2) fun _ =>
  step read_opt_u32 fun target_id =>
  step readU16R fun tt =>
  step (skipR 2) fun _ =>
  step readF32R fun x =>
  step readF32R fun y =>
  step (ObjectsList.read_from selected_count) fun buildings =>
  pureR { buildings, target_id,
          target_type_id := if tt = 65535 then none else some tt,
          location := some (x, y) }

/-- `SetGatherPointCommand::write_to` (`actions.rs` lines 1265-1283): the
count byte is `buildings.len()` narrowed to `u8`; `None` targets emit the
`0xFFFFFFFF` and `0xFFFF` sentinels; an absent location defaults to
`(0.0, 0.0)`. -/
def SetGatherPointCommand.write_to (c : SetGatherPointCommand) : Outcome Bytes :=
  if ObjectsList.len c.buildings ≤ 255 then
    .ok ([ObjectsList.len c.buildings] ++ [0, 0]
      ++ u32Bytes (match c.target_id with | some id => id | none => 4294967295)
      ++ u16Bytes (match c.target_type_id with | some id => id | none => 65535)
      ++ [0, 0]
      ++ (match c.location with
          | some (x, y) => u32Bytes x ++ u32Bytes y
          | none => u32Bytes 0 ++ u32Bytes 0)
      ++ ObjectsList.write_to c.buildings) []
  else .panicked "unwrap on Err"

/-- `SellResourceCommand` (`actions.rs` lines 1313-1323). -/
structure SellResourceCommand where
  player_id : Nat
  resource : Nat
  amount : Int
  market_id : Nat
deriving DecidableEq

/-- `SellResourceCommand::read_from` (`buy_sell_impl!`, lines 1288-1309). -/
def SellResourceCommand.read_from : DRead SellResourceCommand :=
  step readU8R fun player_id =>
  step readU8R fun resource =>
  step readI8R fun amount =>
  step readU32R fun market_id =>
  pureR { player_id, resource, amount, market_id }

/-- `BuyResourceCommand` (`actions.rs` lines 1329-1339). -/
structure BuyResourceCommand where
  player_id : Nat
  resource : Nat
  amount : Int
  market_id : Nat
deriving DecidableEq

/-- `BuyResourceCommand::read_from` (`buy_sell_impl!`, lines 1288-1309). -/
def BuyResourceCommand.read_from : DRead BuyResourceCommand :=
  step readU8R fun player_id =>
  step readU8R fun resource =>
  step readI8R fun amount =>
  step readU32R fun market_id =>
  pureR { player_id, resource, amount, market_id }

/-- `Unknown7FCommand` (`actions.rs` lines 1344-1347). -/
structure Unknown7FCommand where
  object_id : Nat
  value : Nat
deriving DecidableEq

/-- `Unknown7FCommand::read_from` (`actions.rs` lines 1350-1355). -/
def Unknown7FCommand.read_from : DRead Unknown7FCommand :=
  step (skipR 3) fun _ =>
  step readU32R fun object_id =>
  step readU32R fun value =>
  pureR { object_id, value }

/-- `BackToWorkCommand` (`actions.rs` lines 1360-1362). -/
structure BackToWorkCommand where
  building_id : Nat
deriving DecidableEq

/-- `BackToWorkCommand::read_from` (`actions.rs` lines 1365-1369). -/
def BackToWorkCommand.read_from : DRead BackToWorkCommand :=
  step (skipR 3) fun _ =>
  step readU32R fun building_id =>
  pureR { building_id }

/-- The `Command` tagged union (`actions.rs` lines 1374-1407). -/
inductive Command where
  | Order (c : OrderCommand)
  | Stop (c : StopCommand)
  | Work (c : WorkCommand)
  | Move (c : MoveCommand)
  | Create (c : CreateCommand)
  | AddResource (c : AddResourceCommand)
  | AIOrder (c : AIOrderCommand)
  | Resign (c : ResignCommand)
  | GroupWaypoint (c : GroupWaypointCommand)
  | UnitAIState (c : UnitAIStateCommand)
  | Guard (c : GuardCommand)
  | Follow (c : FollowCommand)
  | Patrol (c : PatrolCommand)
  | FormFormation (c : FormFormationCommand)
  | UserPatchAI (c : UserPatchAICommand)
  | Make (c : MakeCommand)
  | Research (c : ResearchCommand)
  | Build (c : BuildCommand)
  | Game (c : GameCommand)
  | BuildWall (c : BuildWallCommand)
  | CancelBuild (c : CancelBuildCommand)
  | AttackGround (c : AttackGroundCommand)
  | Repair (c : RepairCommand)
  | Ungarrison (c : UngarrisonCommand)
  | Flare (c : FlareCommand)
  | UnitOrder (c : UnitOrderCommand)
  | Queue (c : QueueCommand)
  | SetGatherPoint (c : SetGatherPointCommand)
  | SellResource (c : SellResourceCommand)
  | BuyResource (c : BuyResourceCommand)
  | Unknown7F (c : Unknown7FCommand)
  | BackToWork (c : BackToWorkCommand)
deriving DecidableEq

/-- The opcode table of `Command::read_from` (`actions.rs` lines 1414-1446). -/
def knownOpcodes : List Nat :=
  [0x00, 0x01, 0x02, 0x03, 0x04, 0x05, 0x0a, 0x0b, 0x10, 0x12, 0x13, 0x14,
   0x15, 0x17, 0x35, 0x64, 0x65, 0x66, 0x67, 0x69, 0x6a, 0x6b, 0x6e, 0x6f,
   0x73, 0x75, 0x77, 0x78, 0x7a, 0x7b, 0x7f, 0x80]

/-- The sub-opcode table of `GameCommand::read_from` (`actions.rs` lines
920-968). -/
def knownGameCommands : List Nat :=
  [0x01, 0x02, 0x03, 0x04, 0x05, 0x06, 0x07, 0x0a, 0x0b, 0x0c, 0x0d, 0x0e, 0x10]

/-- The opcode dispatch of `Command::read_from` (`actions.rs` lines
1414-1448): read the leading opcode byte from the length-bounded
sub-cursor, decode the matching variant from the same sub-cursor
(`UserPatchAI` also receives the declared length `len`); an unknown opcode
panics ("unsupported command type"). -/
def Command.dispatch (len : Nat) : DRead Command := fun cursor =>
  match readU8 cursor with
  | none => .error
  | some (opcode, rest) =>
    if opcode = 0x00 then mapO Command.Order (OrderCommand.read_from rest)
    else if opcode = 0x01 then mapO Command.Stop (StopCommand.read_from rest)
    else if opcode = 0x02 then mapO Command.Work (WorkCommand.read_from rest)
    else if opcode = 0x03 then mapO Command.Move (MoveCommand.read_from rest)
    else if opcode = 0x04 then mapO Command.Create (CreateCommand.read_from rest)
    else if opcode = 0x05 then mapO Command.AddResource (AddResourceCommand.read_from rest)
    else if opcode = 0x0a then mapO Command.AIOrder (AIOrderCommand.read_from rest)
    else if opcode = 0x0b then mapO Command.Resign (ResignCommand.read_from rest)
    else if opcode = 0x10 then mapO Command.GroupWaypoint (GroupWaypointCommand.read_from rest)
    else if opcode = 0x12 then mapO Command.UnitAIState (UnitAIStateCommand.read_from rest)
    else if opcode = 0x13 then mapO Command.Guard (GuardCommand.read_from rest)
    else if opcode = 0x14 then mapO Command.Follow (FollowCommand.read_from rest)
    else if opcode = 0x15 then mapO Command.Patrol (PatrolCommand.read_from rest)
    else if opcode = 0x17 then mapO Command.FormFormation (FormFormationCommand.read_from rest)
    else if opcode = 0x35 then mapO Command.UserPatchAI (UserPatchAICommand.read_from len rest)
    else if opcode = 0x64 then mapO Command.Make (MakeCommand.read_from rest)
    else if opcode = 0x65 then mapO Command.Research (ResearchCommand.read_from rest)
    else if opcode = 0x66 then mapO Command.Build (BuildCommand.read_from rest)
    else if opcode = 0x67 then mapO Command.Game (GameCommand.read_from rest)
    else if opcode = 0x69 then mapO Command.BuildWall (BuildWallCommand.read_from rest)
    else if opcode = 0x6a then mapO Command.CancelBuild (CancelBuildCommand.read_from rest)
    else if opcode = 0x6b then mapO Command.AttackGround (AttackGroundCommand.read_from rest)
    else if opcode = 0x6e then mapO Command.Repair (RepairCommand.read_from rest)
    else if opcode = 0x6f then mapO Command.Ungarrison (UngarrisonCommand.read_from rest)
    else if opcode = 0x73 then mapO Command.Flare (FlareCommand.read_from rest)
    else if opcode = 0x75 then mapO Command.UnitOrder (UnitOrderCommand.read_from rest)
    else if opcode = 0x77 then mapO Command.Queue (QueueCommand.read_from rest)
    else if opcode = 0x78 then mapO Command.SetGatherPoint (SetGatherPointCommand.read_from rest)
    else if opcode = 0x7a then mapO Command.SellResource (SellResourceCommand.read_from rest)
    else if opcode = 0x7b then mapO Command.BuyResource (BuyResourceCommand.read_from rest)
    else if opcode = 0x7f then mapO Command.Unknown7F (Unknown7FCommand.read_from rest)
    else if opcode = 0x80 then mapO Command.BackToWork (BackToWorkCommand.read_from rest)
    else .panicked "unsupported command type"

/-- `Command::read_from` (`actions.rs` lines 1410-1454), the frame codec:
read the 32-bit declared length, bound a sub-cursor to exactly that many
bytes (`input.by_ref().take(len)`), dispatch on the leading opcode byte of
the sub-cursor, then drain whatever the variant left unread
(`std::io::copy(&mut cursor, sink)`), then read the trailing 32-bit world
time from the outer stream.  A panic inside the dispatch unwinds at once;
an `Err` value is held and returned only after the drain and the
world-time read. -/
def Command.read_from : DRead Command := fun input =>
  match readU32 input with
  | none => .error
  | some (len, rest) =>
    let cursor := rest.take len
    let after := rest.drop len
    match Command.dispatch len cursor with
    | .panicked s => .panicked s
    | result =>
      match readU32 after with
      | none => .error
      | some (_world_time, after2) =>
        match result with
        | .ok c _ => .ok c after2
        | _ => .error

/-- `Sync` (`actions.rs` lines 1482-1487). -/
structure Sync where
  checksum : Nat
  position_checksum : Nat
  action_checksum : Nat
  next_world_time : Nat
deriving DecidableEq

/-- `Sync::read_from` (`actions.rs` lines 1490-1506): when the action
checksum is non-zero, an extra 332-byte block is skipped before the
trailing always-zero word and the next world time. -/
def Sync.read_from : DRead Sync :=
  step readU32R fun _always_zero =>
  step readU32R fun checksum =>
  step readU32R fun position_checksum =>
  step readU32R fun action_checksum =>
  step (if action_checksum ≠ 0 then skipR 332 else pureR ()) fun _ =>
  step readU32R fun _always_zero2 =>
  step readU32R fun next_world_time =>
  pureR { checksum, position_checksum, action_checksum, next_world_time }

/-- `Chat` (`actions.rs` lines 1577-1579), the message as raw bytes. -/
structure Chat where
  message : Bytes
deriving DecidableEq

/-- `Chat::read_from` (`actions.rs` lines 1582-1586): asserts the fixed
leading `-1` marker (`assert_eq!`), panicking on mismatch, then reads the
length-prefixed message. -/
def Chat.read_from : DRead Chat :=
  step readI32R fun marker =>
  step (if marker = -1 then pureR ()
        else panicR "assertion failed: left == right") fun _ =>
  step read_u32_length_prefixed_str fun message =>
  pureR { message := message.getD [] }

/-! ### Helper lemmas about the primitive codec -/

theorem readU32_u32Bytes {v : Nat} (h : v < 4294967296) (r : Bytes) :
    readU32 (u32Bytes v ++ r) = some (v, r) := by
  simp only [u32Bytes, List.cons_append, List.nil_append, readU32, Option.some.injEq,
    Prod.mk.injEq, and_true]
  omega

theorem readU16_u16Bytes {v : Nat} (h : v < 65536) (r : Bytes) :
    readU16 (u16Bytes v ++ r) = some (v, r) := by
  simp only [u16Bytes, List.cons_append, List.nil_append, readU16, Option.some.injEq,
    Prod.mk.injEq, and_true]
  omega

theorem readU32_some_drop {input : Bytes} {v : Nat} {r : Bytes}
    (h : readU32 input = some (v, r)) : r = input.drop 4 := by
  match input with
  | [] | [_] | [_, _] | [_, _, _] => simp [readU32] at h
  | b0 :: b1 :: b2 :: b3 :: rest =>
    simp only [readU32, Option.some.injEq, Prod.mk.injEq] at h
    simp [← h.2]

theorem readU32_append_of_length {w : Bytes} (hw : w.length = 4) (r : Bytes) :
    ∃ v, readU32 (w ++ r) = some (v, r) := by
  match w, hw with
  | [b0, b1, b2, b3], _ => exact ⟨_, rfl⟩

theorem skipBytes_append {l : Bytes} {n : Nat} (h : l.length = n) (r : Bytes) :
    skipBytes n (l ++ r) = some ((), r) := by
  induction l generalizing n with
  | nil => subst h; rfl
  | cons b bs ih =>
    subst h
    simpa [skipBytes] using ih rfl

theorem objectsList_read_from_zero (input : Bytes) :
    ObjectsList.read_from 0 input = .ok (ObjectsList.List []) input := by
  unfold ObjectsList.read_from
  rw [if_pos (by decide : (0:Int) < 255)]
  simp [readObjectIds, step, pureR]

theorem readObjectIds_ok (n : Nat) :
    ∀ (input : Bytes) (l : List Nat) (r : Bytes),
      readObjectIds n input = .ok l r → l.length = n ∧ r = input.drop (4 * n) := by
  induction n with
  | zero =>
    intro input l r h
    simp only [readObjectIds, pureR, Outcome.ok.injEq] at h
    simp [← h.1, ← h.2]
  | succ n ih =>
    intro input l r h
    simp only [readObjectIds, step, readI32R, readU32R, liftOpt, pureR] at h
    cases h32 : readU32 input with
    | none => rw [h32] at h; exact absurd h (by simp)
    | some p =>
      obtain ⟨v, rest4⟩ := p
      rw [h32] at h
      simp only at h
      by_cases hneg : toSigned32 v < 0
      · rw [if_pos hneg] at h; exact absurd h (by simp [panicR])
      · rw [if_neg hneg] at h
        simp only [step] at h
        cases hrec : readObjectIds n rest4 with
        | ok l' r' =>
          rw [hrec] at h
          simp only [pureR, Outcome.ok.injEq] at h
          obtain ⟨hlen, hdrop⟩ := ih rest4 l' r' hrec
          have hr4 : rest4 = input.drop 4 := readU32_some_drop h32
          constructor
          · simp [← h.1, hlen]
          · rw [← h.2, hdrop, hr4, List.drop_drop]
            congr 1
            omega
        | error => rw [hrec] at h; exact absurd h (by simp)
        | panicked s => rw [hrec] at h; exact absurd h (by simp)

/-! ### Claim theorems -/

/-- C1: for a signed count `c` with `0 ≤ c < 255`, `ObjectsList::read_from`
returns (when it succeeds) an explicit `ObjectsList::List` of exactly `c`
decoded 32-bit identifiers — never the `SameAsLast` reuse marker — having
consumed `4 * c` identifier bytes; `c = 0` always succeeds with the empty
explicit list, consuming nothing; and every `c ≥ 255` returns the reuse
marker and consumes zero identifier bytes. -/
theorem C1_objects_list_count_rule (input : Bytes) (c : Int) :
    (0 ≤ c → c < 255 →
      (∀ l r, ObjectsList.read_from c input = .ok l r →
        ∃ ids, l = ObjectsList.List ids ∧ (ids.length : Int) = c ∧
          r = input.drop (4 * ids.length)) ∧
      (∀ r, ObjectsList.read_from c input ≠ .ok ObjectsList.SameAsLast r))
  ∧ ObjectsList.read_from 0 input = .ok (ObjectsList.List []) input
  ∧ (255 ≤ c → ObjectsList.read_from c input = .ok ObjectsList.SameAsLast input) := by
  refine ⟨fun h0 h255 => ?_, ?_, fun h255 => ?_⟩
  · have hmain : ∀ l r, ObjectsList.read_from c input = .ok l r →
        ∃ ids, l = ObjectsList.List ids ∧ (ids.length : Int) = c ∧
          r = input.drop (4 * ids.length) := by
      intro l r h
      simp only [ObjectsList.read_from, if_pos h255, step] at h
      cases hrec : readObjectIds c.toNat input with
      | ok ids r' =>
        rw [hrec] at h
        simp only [pureR, Outcome.ok.injEq] at h
        obtain ⟨hlen, hdrop⟩ := readObjectIds_ok c.toNat input ids r' hrec
        refine ⟨ids, h.1.symm, ?_, ?_⟩
        · rw [hlen, Int.toNat_of_nonneg h0]
        · rw [← h.2, hdrop, hlen]
      | error => rw [hrec] at h; exact absurd h (by simp)
      | panicked s => rw [hrec] at h; exact absurd h (by simp)
    refine ⟨hmain, fun r h => ?_⟩
    obtain ⟨ids, hids, -, -⟩ := hmain ObjectsList.SameAsLast r h
    exact ObjectsList.noConfusion hids
  · simp [ObjectsList.read_from, readObjectIds, step, pureR]
  · simp only [ObjectsList.read_from, if_neg (by omega : ¬c < 255), pureR]

/-- Witness for C1 at `c = 2` on a 9-byte stream, at `c = 0`, and at
`c = 300` (the marker case). -/
theorem C1_witness :
    ((0:Int) ≤ 2 ∧ (2:Int) < 255 ∧
      ∃ ids, ObjectsList.List [5, 6] = ObjectsList.List ids ∧ (ids.length : Int) = 2 ∧
        ([99] : Bytes) = ([5,0,0,0, 6,0,0,0, 99] : Bytes).drop (4 * ids.length))
  ∧ ObjectsList.read_from 0 [1, 2] = .ok (ObjectsList.List []) [1, 2]
  ∧ ((255:Int) ≤ 300 ∧
      ObjectsList.read_from 300 [1, 2] = .ok ObjectsList.SameAsLast [1, 2]) := by
  refine ⟨⟨by decide, by decide, ?_⟩, (C1_objects_list_count_rule [1, 2] 300).2.1,
          by decide, (C1_objects_list_count_rule [1, 2] 300).2.2 (by decide)⟩
  exact ((C1_objects_list_count_rule [5,0,0,0, 6,0,0,0, 99] 2).1 (by decide) (by decide)).1
    (ObjectsList.List [5, 6]) [99] (by decide)

/-- C10: for every strictly negative count, `ObjectsList::read_from`
succeeds with the explicit empty list (not the reuse marker), consuming
zero identifier bytes: `0..count` in Rust is an empty range for negative
`count`, and `count < 0xFF` holds. -/
theorem C10_negative_count_empty_list (input : Bytes) (c : Int) (h : c < 0) :
    ObjectsList.read_from c input = .ok (ObjectsList.List []) input := by
  have ht : c.toNat = 0 := Int.toNat_of_nonpos h.le
  simp [ObjectsList.read_from, if_pos (by omega : c < 255), ht, readObjectIds, step, pureR]

/-- Witness for C10 at `c = -7`. -/
theorem C10_witness :
    (-7 : Int) < 0 ∧
    ObjectsList.read_from (-7) [1, 2, 3] = .ok (ObjectsList.List []) [1, 2, 3] :=
  ⟨by decide, C10_negative_count_empty_list [1, 2, 3] (-7) (by decide)⟩

/-- C9: the Stop payload `[3] ++ le32(10) ++ le32(11) ++ le32(12)` decodes
to the explicit list `[10, 11, 12]` consuming all 13 bytes; re-encoding the
decoded command reproduces the identical `1 + 3*4`-byte sequence, so the
round-trip is the identity and the encoded length matches the original
record length. -/
theorem C9_stop_roundtrip :
    StopCommand.read_from [3, 10,0,0,0, 11,0,0,0, 12,0,0,0]
      = .ok { objects := ObjectsList.List [10, 11, 12] } []
  ∧ StopCommand.write_to { objects := ObjectsList.List [10, 11, 12] }
      = .ok [3, 10,0,0,0, 11,0,0,0, 12,0,0,0] []
  ∧ ([3, 10,0,0,0, 11,0,0,0, 12,0,0,0] : Bytes).length = 1 + 3 * 4 := by
  decide

/-- C7: evaluating `UserPatchAICommand::read_from` at the failing input.  A
declared frame length of 20 means `(20 - 4) / 4 = 4` parameters, which the
4-capacity parameter buffer has room for, yet `assert!(num_params < 4)`
panics ("needs more room"); a length of 16 decodes `(16 - 4) / 4 = 3`
parameters from the declared frame length as specified. -/
theorem C7_param_count_off_by_one :
    UserPatchAICommand.read_from 20 [1, 2, 0, 5,0,0,0, 6,0,0,0, 7,0,0,0, 8,0,0,0]
      = .panicked "UserPatchAICommand needs more room"
  ∧ UserPatchAICommand.read_from 16 [1, 2, 0, 5,0,0,0, 6,0,0,0, 7,0,0,0]
      = .ok { player_id := 2, ai_action := 1, params := [5, 6, 7] } [] := by
  decide

/-- C2: for a frame whose outer stream is the 32-bit declared length `n`,
a body of exactly `n` bytes, a 4-byte world-time field and then arbitrary
further stream content `tail`, `Command::read_from` equals the dispatch of
the command variant on the `n`-byte sub-cursor alone — so the variant
decoder can never read past the declared length into `wt` or `tail`, and
whatever the variant leaves unread in the sub-cursor is discarded — and
on success the remaining stream is exactly `tail`, the world time having
been read from the outer stream after the bounded region; hence a
well-formed next frame in `tail` still decodes correctly after a frame
with trailing padding. -/
theorem C2_frame_bound (n : Nat) (body wt tail : Bytes)
    (hn : n < 4294967296) (hb : body.length = n) (hw : wt.length = 4) :
    Command.read_from (u32Bytes n ++ (body ++ (wt ++ tail))) =
      match Command.dispatch n body with
      | .ok c _ => .ok c tail
      | .error => .error
      | .panicked s => .panicked s := by
  obtain ⟨v, hv⟩ := readU32_append_of_length hw tail
  unfold Command.read_from
  rw [readU32_u32Bytes hn]
  simp only [List.take_left' hb, List.drop_left' hb, hv]
  cases Command.dispatch n body <;> simp

/-- Witness for C2: a Stop frame with declared length 16 (opcode + 13
payload bytes + 2 bytes of trailing padding the variant leaves unread),
followed by a world time and one further stream byte; the frame decodes to
the Stop command and leaves exactly that byte unread. -/
theorem C2_witness :
    Command.read_from
        (u32Bytes 16 ++ ([1, 3, 10,0,0,0, 11,0,0,0, 12,0,0,0, 9, 9] ++ ([7,0,0,0] ++ [42])))
      = .ok (Command.Stop { objects := ObjectsList.List [10, 11, 12] }) [42] := by
  rw [C2_frame_bound 16 [1, 3, 10,0,0,0, 11,0,0,0, 12,0,0,0, 9, 9] [7,0,0,0] [42]
    (by decide) (by decide) (by decide)]
  decide

/-- C6: `Sync::read_from` consumes, after the leading always-zero word and
the three checksum words, no extra block when the action checksum is 0 and
exactly a 332-byte extra block when it is non-zero, in both cases before
reading the trailing always-zero word and the next-world-time field; the
remaining stream afterwards is untouched. -/
theorem C6_sync_extra_block (a c p act z t : Nat) (extra rest : Bytes)
    (ha : a < 4294967296) (hc : c < 4294967296) (hp : p < 4294967296)
    (hact : act < 4294967296) (hz : z < 4294967296) (ht : t < 4294967296)
    (hextra : extra.length = if act = 0 then 0 else 332) :
    Sync.read_from
        (u32Bytes a ++ (u32Bytes c ++ (u32Bytes p ++ (u32Bytes act ++
          (extra ++ (u32Bytes z ++ (u32Bytes t ++ rest)))))))
      = .ok { checksum := c, position_checksum := p, action_checksum := act,
              next_world_time := t } rest := by
  unfold Sync.read_from
  simp only [step, readU32R, liftOpt, readU32_u32Bytes ha, readU32_u32Bytes hc,
    readU32_u32Bytes hp, readU32_u32Bytes hact]
  by_cases h0 : act = 0
  · subst h0
    have hnil : extra = [] := List.length_eq_zero.mp (by simpa using hextra)
    subst hnil
    simp only [ne_eq, not_true_eq_false, if_false, pureR, List.nil_append,
      readU32_u32Bytes hz, readU32_u32Bytes ht]
  · rw [if_pos h0]
    have h332 : extra.length = 332 := by simpa [h0] using hextra
    simp only [skipR, liftOpt, skipBytes_append h332, readU32_u32Bytes hz,
      readU32_u32Bytes ht, pureR]

set_option maxRecDepth 4000 in
/-- Witness for C6 in both regimes: a zero action checksum consuming no
extra block, and an action checksum of 3 consuming a 332-byte block. -/
theorem C6_witness :
    Sync.read_from
        (u32Bytes 0 ++ (u32Bytes 7 ++ (u32Bytes 8 ++ (u32Bytes 0 ++
          ([] ++ (u32Bytes 0 ++ (u32Bytes 77 ++ [5])))))))
      = .ok { checksum := 7, position_checksum := 8, action_checksum := 0,
              next_world_time := 77 } [5]
  ∧ Sync.read_from
        (u32Bytes 0 ++ (u32Bytes 7 ++ (u32Bytes 8 ++ (u32Bytes 3 ++
          (List.replicate 332 1 ++ (u32Bytes 0 ++ (u32Bytes 77 ++ [5])))))))
      = .ok { checksum := 7, position_checksum := 8, action_checksum := 3,
              next_world_time := 77 } [5] :=
  ⟨C6_sync_extra_block 0 7 8 0 0 77 [] [5] (by decide) (by decide) (by decide)
      (by decide) (by decide) (by decide) (by decide),
    C6_sync_extra_block 0 7 8 3 0 77 (List.replicate 332 1) [5] (by decide) (by decide)
      (by decide) (by decide) (by decide) (by decide) (by simp)⟩

/-- C3 counterexample: on a frame with the unknown opcode `0x99` (declared
length 1, world time 0) the decoder does not surface an error result to the
caller — it panics (`panic!("unsupported command type ...")`), i.e. the
process terminates; likewise a `Game` command whose sub-opcode `0x20` is
outside the sub-opcode table panics instead of producing an `Err`. -/
theorem C3_counterexample :
    Command.read_from [1,0,0,0, 0x99, 0,0,0,0] = .panicked "unsupported command type"
  ∧ Command.read_from [1,0,0,0, 0x99, 0,0,0,0] ≠ .error
  ∧ GameCommand.read_from [0x20, 0,0, 0,0, 0,0, 0,0,0,0, 0,0,0,0]
      = .panicked "unimplemented game command"
  ∧ GameCommand.read_from [0x20, 0,0, 0,0, 0,0, 0,0,0,0, 0,0,0,0] ≠ .error := by
  decide

/-- C3 (amended): for every frame whose leading opcode byte is outside the
known opcode table, and for every `Game` command whose sub-opcode byte is
outside the known sub-opcode table, decoding fails non-recoverably with an
"unsupported"/"unimplemented" panic — process termination via `panic!`,
not an error result returned to the caller — and never fabricates a
record. -/
theorem C3_unknown_opcode_panics :
    (∀ (len op : Nat) (rest : Bytes), op < 256 → op ∉ knownOpcodes →
      Command.dispatch len (op :: rest) = .panicked "unsupported command type")
  ∧ (∀ (sub b1 b2 b3 b4 b5 b6 b7 b8 b9 b10 b11 b12 b13 b14 : Nat) (rest : Bytes),
      sub < 256 → sub ∉ knownGameCommands →
      GameCommand.read_from
          (sub :: b1 :: b2 :: b3 :: b4 :: b5 :: b6 :: b7 :: b8 :: b9 :: b10
            :: b11 :: b12 :: b13 :: b14 :: rest)
        = .panicked "unimplemented game command") := by
  constructor
  · intro len op rest hop hmem
    simp only [knownOpcodes, List.mem_cons, List.not_mem_nil, or_false, not_or] at hmem
    obtain ⟨e0, e1, e2, e3, e4, e5, e6, e7, e8, e9, e10, e11, e12, e13, e14, e15, e16,
      e17, e18, e19, e20, e21, e22, e23, e24, e25, e26, e27, e28, e29, e30, e31⟩ := hmem
    simp only [Command.dispatch, readU8, if_neg e0, if_neg e1, if_neg e2, if_neg e3,
      if_neg e4, if_neg e5, if_neg e6, if_neg e7, if_neg e8, if_neg e9, if_neg e10,
      if_neg e11, if_neg e12, if_neg e13, if_neg e14, if_neg e15, if_neg e16, if_neg e17,
      if_neg e18, if_neg e19, if_neg e20, if_neg e21, if_neg e22, if_neg e23, if_neg e24,
      if_neg e25, if_neg e26, if_neg e27, if_neg e28, if_neg e29, if_neg e30, if_neg e31]
  · intro sub b1 b2 b3 b4 b5 b6 b7 b8 b9 b10 b11 b12 b13 b14 rest hsub hmem
    simp only [knownGameCommands, List.mem_cons, List.not_mem_nil, or_false, not_or] at hmem
    obtain ⟨e0, e1, e2, e3, e4, e5, e6, e7, e8, e9, e10, e11, e12⟩ := hmem
    simp only [GameCommand.read_from, RawGameCommand.read_from, step, readU8R, readI16R,
      readU16R, readU32R, readF32R, liftOpt, readU8, readU16, readU32, pureR,
      if_neg e0, if_neg e1, if_neg e2, if_neg e3, if_neg e4, if_neg e5, if_neg e6,
      if_neg e7, if_neg e8, if_neg e9, if_neg e10, if_neg e11, if_neg e12]
    rfl

/-- Witness for C3 (amended) at opcode `0x42` and sub-opcode `0x42`. -/
theorem C3_witness :
    ((0x42 : Nat) < 256 ∧ (0x42 : Nat) ∉ knownOpcodes ∧
      Command.dispatch 5 [0x42, 0, 0] = .panicked "unsupported command type")
  ∧ ((0x42 : Nat) ∉ knownGameCommands ∧
      GameCommand.read_from [0x42, 0,0, 0,0, 0,0, 0,0,0,0, 0,0,0,0]
        = .panicked "unimplemented game command") :=
  ⟨⟨by decide, by decide,
      C3_unknown_opcode_panics.1 5 0x42 [0, 0] (by decide) (by decide)⟩,
    ⟨by decide,
      C3_unknown_opcode_panics.2 0x42 0 0 0 0 0 0 0 0 0 0 0 0 0 0 [] (by decide) (by decide)⟩⟩

/-- C4 counterexample: a BuildWall payload whose trailing guard word is not
all-ones, and a chat record whose leading word is not `-1`, are not
reported as error results — both decoders panic (failed `assert_eq!`,
process termination). -/
theorem C4_counterexample :
    BuildWallCommand.read_from [0, 1, 2, 3, 4, 5, 0, 0, 0, 0, 0, 9, 9, 9, 9]
      = .panicked "check out what this is for"
  ∧ BuildWallCommand.read_from [0, 1, 2, 3, 4, 5, 0, 0, 0, 0, 0, 9, 9, 9, 9] ≠ .error
  ∧ Chat.read_from [1, 0, 0, 0] = .panicked "assertion failed: left == right"
  ∧ Chat.read_from [1, 0, 0, 0] ≠ .error := by
  decide

/-- C4 (amended): when BuildWall's required trailing all-ones guard value,
or Chat's required leading `-1` marker value, does not match during
decoding, the decoder terminates the process via a failed assertion
(panic) rather than returning a corrupt-input error result to the
caller. -/
theorem C4_guard_mismatch_panics :
    (∀ (sc p x1 y1 x2 y2 pad t1 t2 q1 q2 g : Nat) (rest : Bytes),
      g < 4294967296 → g ≠ 4294967295 →
      BuildWallCommand.read_from
          (sc :: p :: x1 :: y1 :: x2 :: y2 :: pad :: t1 :: t2 :: q1 :: q2
            :: (u32Bytes g ++ rest))
        = .panicked "check out what this is for")
  ∧ (∀ (w : Nat) (rest : Bytes), w < 4294967296 → w ≠ 4294967295 →
      Chat.read_from (u32Bytes w ++ rest)
        = .panicked "assertion failed: left == right") := by
  constructor
  · intro sc p x1 y1 x2 y2 pad t1 t2 q1 q2 g rest hg hne
    simp only [BuildWallCommand.read_from, step, readI8R, readU8R, readU16R, readU32R,
      liftOpt, readU8, readU16, pureR, readU32_u32Bytes hg]
    rw [if_neg hne]
    rfl
  · intro w rest hw hne
    have hns : toSigned32 w ≠ -1 := by unfold toSigned32; split <;> omega
    simp only [Chat.read_from, step, readI32R, readU32R, liftOpt, pureR,
      readU32_u32Bytes hw]
    rw [if_neg hns]
    rfl

/-- Witness for C4 (amended): guard word 9 and marker word 1. -/
theorem C4_witness :
    ((9 : Nat) ≠ 4294967295 ∧
      BuildWallCommand.read_from (0 :: 1 :: 2 :: 3 :: 4 :: 5 :: 0 :: 0 :: 0 :: 0 :: 0
          :: (u32Bytes 9 ++ []))
        = .panicked "check out what this is for")
  ∧ ((1 : Nat) ≠ 4294967295 ∧
      Chat.read_from (u32Bytes 1 ++ []) = .panicked "assertion failed: left == right") :=
  ⟨⟨by decide,
      C4_guard_mismatch_panics.1 0 1 2 3 4 5 0 0 0 0 0 9 [] (by decide) (by decide)⟩,
    ⟨by decide, C4_guard_mismatch_panics.2 1 [] (by decide) (by decide)⟩⟩

/-- C5 counterexample: encoding an Order command whose object list is the
reuse marker emits no identifier bytes, but the 32-bit count field (bytes
7..10 of the output) carries `objects.len() = 0`, not the `0xFF` sentinel —
so decoding the encoder's own output yields an explicit empty list instead
of the marker. -/
theorem C5_counterexample :
    OrderCommand.write_to
        { player_id := 1, target_id := none, location := (0, 0),
          objects := ObjectsList.SameAsLast }
      = .ok [1, 0, 0, 255, 255, 255, 255, 0, 0, 0, 0, 0, 0, 0, 0, 0, 0, 0, 0] []
  ∧ ([1, 0, 0, 255, 255, 255, 255, 0, 0, 0, 0, 0, 0, 0, 0, 0, 0, 0, 0] : Bytes).drop 7
      ≠ 255 :: ([1, 0, 0, 255, 255, 255, 255, 0, 0, 0, 0, 0, 0, 0, 0, 0, 0, 0, 0] : Bytes).drop 8
  ∧ OrderCommand.read_from [1, 0, 0, 255, 255, 255, 255, 0, 0, 0, 0, 0, 0, 0, 0, 0, 0, 0, 0]
      = .ok { player_id := 1, target_id := none, location := (0, 0),
              objects := ObjectsList.List [] } [] := by
  decide

/-- C5 (amended): for every command whose object list is the reuse marker
(`SameAsLast`), encoding emits no identifier bytes for the list, and the
count field written by the command encoder carries `objects.len()`, which
is 0 for the marker — not the `0xFF` sentinel — so marker commands do not
survive an encode/decode round trip. -/
theorem C5_marker_count_field (c : OrderCommand) (h : c.objects = ObjectsList.SameAsLast) :
    ObjectsList.write_to c.objects = []
  ∧ ∀ bs r, OrderCommand.write_to c = .ok bs r →
      (bs.drop 7).take 4 = u32Bytes 0 ∧ bs.length = 19 := by
  obtain ⟨pid, tid, loc, objs⟩ := c
  simp only at h
  subst h
  refine ⟨rfl, fun bs r hw => ?_⟩
  have hneg : i32Bytes (-1) = [255, 255, 255, 255] := by decide
  cases tid with
  | none =>
    simp only [OrderCommand.write_to, hneg, ObjectsList.len, ObjectsList.write_to,
      Outcome.ok.injEq] at hw
    rw [← hw.1]
    constructor
    · simp [u32Bytes]
    · simp [u32Bytes]
  | some id =>
    by_cases hid : id < 2147483648
    · simp only [OrderCommand.write_to, if_pos hid, ObjectsList.len, ObjectsList.write_to,
        Outcome.ok.injEq] at hw
      rw [← hw.1]
      constructor
      · simp [u32Bytes, i32Bytes]
      · simp [u32Bytes, i32Bytes]
    · simp only [OrderCommand.write_to, if_neg hid] at hw
      exact absurd hw (by simp)

/-- Witness for C5 (amended) on a concrete marker-carrying Order command. -/
theorem C5_witness :
    ObjectsList.write_to ObjectsList.SameAsLast = []
  ∧ (([7, 0, 0, 255, 255, 255, 255, 0, 0, 0, 0, 3, 0, 0, 0, 4, 0, 0, 0] : Bytes).drop 7).take 4
      = u32Bytes 0
  ∧ ([7, 0, 0, 255, 255, 255, 255, 0, 0, 0, 0, 3, 0, 0, 0, 4, 0, 0, 0] : Bytes).length = 19 := by
  have h := C5_marker_count_field
    { player_id := 7, target_id := none, location := (3, 4),
      objects := ObjectsList.SameAsLast } rfl
  exact ⟨h.1, h.2 [7, 0, 0, 255, 255, 255, 255, 0, 0, 0, 0, 3, 0, 0, 0, 4, 0, 0, 0] []
    (by decide)⟩

/-- C8: the sentinel law.  Decoding an optional 32-bit identifier maps the
bit pattern `0xFFFFFFFF` to `None` and every other value to `Some`;
encoding `None` (here in `OrderCommand::write_to`) emits exactly the four
`0xFF` bytes at the target-field position; decoding an optional 16-bit
identifier in `SetGatherPointCommand::read_from` maps `0xFFFF` to `None`
and every other value to `Some`; and `SetGatherPointCommand::write_to`
emits the two `0xFF` bytes for a `None` target unit type. -/
theorem C8_sentinel_law :
    (∀ r : Bytes, read_opt_u32 (u32Bytes 4294967295 ++ r) = .ok none r)
  ∧ (∀ (v : Nat) (r : Bytes), v < 4294967296 → v ≠ 4294967295 →
      read_opt_u32 (u32Bytes v ++ r) = .ok (some v) r)
  ∧ (∀ c : OrderCommand, c.target_id = none →
      ∀ bs r, OrderCommand.write_to c = .ok bs r →
        (bs.drop 3).take 4 = [255, 255, 255, 255])
  ∧ (∀ (a b pad1 pad2 t w x y : Nat) (r : Bytes),
      t < 4294967296 → w < 65536 → x < 4294967296 → y < 4294967296 →
      SetGatherPointCommand.read_from
          (0 :: a :: b :: (u32Bytes t ++ (u16Bytes w ++ (pad1 :: pad2
            :: (u32Bytes x ++ (u32Bytes y ++ r))))))
        = .ok { buildings := ObjectsList.List [],
                target_id := if t = 4294967295 then none else some t,
                target_type_id := if w = 65535 then none else some w,
                location := some (x, y) } r)
  ∧ (∀ c : SetGatherPointCommand, c.target_type_id = none →
      ∀ bs r, SetGatherPointCommand.write_to c = .ok bs r →
        (bs.drop 7).take 2 = [255, 255]) := by
  refine ⟨fun r => ?_, fun v r hv hne => ?_, fun c hc bs r hw => ?_,
    fun a b pad1 pad2 t w x y r ht hw16 hx hy => ?_, fun c hc bs r hw => ?_⟩
  · simp only [read_opt_u32, step, readU32R, liftOpt,
      readU32_u32Bytes (by decide : (4294967295:Nat) < 4294967296), pureR, if_pos]
  · simp only [read_opt_u32, step, readU32R, liftOpt, readU32_u32Bytes hv, pureR,
      if_neg hne]
  · obtain ⟨pid, tid, loc, objs⟩ := c
    simp only at hc
    subst hc
    have hneg : i32Bytes (-1) = [255, 255, 255, 255] := by decide
    simp only [OrderCommand.write_to, hneg, Outcome.ok.injEq] at hw
    rw [← hw.1]
    simp [u32Bytes]
  · have h0 : toSigned8 0 = 0 := by decide
    simp only [SetGatherPointCommand.read_from, step, readI8R, readU8R, readU16R, readU32R,
      readF32R, liftOpt, readU8, skipR, skipBytes, read_opt_u32, pureR, h0,
      readU32_u32Bytes ht, readU16_u16Bytes hw16, readU32_u32Bytes hx, readU32_u32Bytes hy,
      objectsList_read_from_zero]
  · obtain ⟨blds, tid, ttid, loc⟩ := c
    simp only at hc
    subst hc
    by_cases hlen : ObjectsList.len blds ≤ 255
    · simp only [SetGatherPointCommand.write_to, if_pos hlen, Outcome.ok.injEq] at hw
      rw [← hw.1]
      simp [u32Bytes, u16Bytes]
    · simp only [SetGatherPointCommand.write_to, if_neg hlen] at hw
      exact absurd hw (by simp)

/-- Witness for C8: the four sentinel directions at concrete values
(`0xFFFFFFFF` decodes to `None`, 7 decodes to `Some 7`, a `None` target
encodes as four `0xFF` bytes, a `0xFFFF` unit type decodes to `None`, and
a `None` unit type encodes as two `0xFF` bytes). -/
theorem C8_witness :
    read_opt_u32 (u32Bytes 4294967295 ++ [9]) = .ok none [9]
  ∧ read_opt_u32 (u32Bytes 7 ++ [9]) = .ok (some 7) [9]
  ∧ (([2, 0, 0, 255, 255, 255, 255, 0, 0, 0, 0, 0, 0, 0, 0, 0, 0, 0, 0] : Bytes).drop 3).take 4
      = [255, 255, 255, 255]
  ∧ SetGatherPointCommand.read_from
        (0 :: 1 :: 2 :: (u32Bytes 4294967295 ++ (u16Bytes 65535 ++ (3 :: 4
          :: (u32Bytes 5 ++ (u32Bytes 6 ++ [8]))))))
      = .ok { buildings := ObjectsList.List [], target_id := none,
              target_type_id := none, location := some (5, 6) } [8]
  ∧ (([0, 0, 0, 255, 255, 255, 255, 255, 255, 0, 0, 0, 0, 0, 0, 0, 0, 0, 0] : Bytes).drop 7).take 2
      = [255, 255] := by
  refine ⟨C8_sentinel_law.1 [9], C8_sentinel_law.2.1 7 [9] (by decide) (by decide),
    C8_sentinel_law.2.2.1
      { player_id := 2, target_id := none, location := (0, 0),
        objects := ObjectsList.List [] } rfl
      [2, 0, 0, 255, 255, 255, 255, 0, 0, 0, 0, 0, 0, 0, 0, 0, 0, 0, 0] [] (by decide),
    ?_,
    C8_sentinel_law.2.2.2.2
      { buildings := ObjectsList.List [], target_id := none, target_type_id := none,
        location := some (0, 0) } rfl
      [0, 0, 0, 255, 255, 255, 255, 255, 255, 0, 0, 0, 0, 0, 0, 0, 0, 0, 0] [] (by decide)⟩
  have h := C8_sentinel_law.2.2.2.1 1 2 3 4 4294967295 65535 5 6 [8]
    (by decide) (by decide) (by decide) (by decide)
  simpa using h

end GenieRec
